import Mathlib

/-!
Verification of the Basalt desktop bootstrap and command-bridge layer
(`apps/desktop/src-tauri/src/lib.rs`) against its specification.

The repository's own code is the single `app_version` command, the setup
closure (debug-only diagnostic line), and the `run` bootstrap ending in
`.expect(...)`.  The command registry and dispatcher live in the host
framework (Tauri); they are modelled from the spec (sections 4.2, 4.3, 6)
where a definition's doc comment says so.
-/

namespace Basalt

/-- Application Metadata (spec section 3): immutable record of name and
semantic version fixed at build time.  Plays the role of the host context
handle (`tauri::AppHandle` exposing `package_info()`). -/
structure AppMetadata where
  name : String
  version : String
  deriving Repr, DecidableEq

/-- Source `app_version` (lib.rs lines 6-9):
`fn app_version(app: tauri::AppHandle) -> String { app.package_info().version.to_string() }`.
`package_info().version` is the build-metadata semantic version; `to_string`
renders it verbatim. -/
def app_version (app : AppMetadata) : String :=
  app.version

/-- Result of one handler execution: a success payload or a
handler-internal failure message (spec sections 3, 7). -/
inductive HandlerResult where
  | success (value : String)
  | failure (msg : String)
  deriving Repr, DecidableEq

/-- Command Handler (spec section 3): a function from the host context
handle to a typed result or error. -/
abbrev Handler : Type :=
  AppMetadata → HandlerResult

/-- Command Registry (spec section 4.2): a table mapping command names to
handlers, built once at startup. -/
abbrev Registry : Type :=
  List (String × Handler)

/-- Modelled from the spec: `register(name, handler)` of the Command
Registry (spec section 4.2) is missing from src/ (it is performed by the
host framework's `generate_handler!` macro).  It inserts a handler under a
unique name and fails with a `DuplicateCommand` condition if invoked twice
with the same name; on failure the registry retains only the first
registration. -/
def register (r : Registry) (name : String) (h : Handler) :
    Except String Registry :=
  if r.any (fun p => p.1 = name) then
    Except.error "DuplicateCommand"
  else
    Except.ok (r ++ [(name, h)])

/-- Modelled from the spec: `resolve(name)` of the Command Registry (spec
section 4.2) is missing from src/ (performed by the host framework).  It
returns the registered handler for `name` or fails with `UnknownCommand`
when no match exists. -/
def resolve (r : Registry) (name : String) : Except String Handler :=
  match r.find? (fun p => p.1 = name) with
  | some p => Except.ok p.2
  | none => Except.error "UnknownCommand"

/-- Invocation Request (spec section 3): command name plus argument
payload (a list of named arguments, empty for the one concrete command). -/
structure InvocationRequest where
  name : String
  args : List (String × String)

/-- Invocation Response (spec sections 3, 6): either a success payload
(`ok = true` with a value) or an error description (`ok = false`). -/
inductive InvocationResponse where
  | ok (value : String)
  | err (error : String)
  deriving Repr, DecidableEq

/-- Modelled from the spec: the Command Dispatcher (spec section 4.3) is
missing from src/ (provided by the host framework's invoke machinery).
It resolves the request's name in the registry and executes the handler,
surfacing handler failures as error responses; when resolution fails it
responds with the `UnknownCommand` error, never silently dropping it and
never terminating. -/
def dispatch (r : Registry) (ctx : AppMetadata) (req : InvocationRequest) :
    InvocationResponse :=
  match resolve r req.name with
  | Except.ok h =>
      match h ctx with
      | HandlerResult.success v => InvocationResponse.ok v
      | HandlerResult.failure m => InvocationResponse.err m
  | Except.error e => InvocationResponse.err e

/-- The handler registered for the `app_version` command: it wraps the
infallible source function `app_version`, whose Rust return type is a plain
`String` (not a `Result`), so it always produces `success`. -/
def appVersionHandler : Handler :=
  fun ctx => HandlerResult.success (app_version ctx)

/-- The registry assembled at bootstrap (lib.rs line 13):
`tauri::generate_handler![app_version]` registers exactly the one command
named `"app_version"`. -/
def basaltRegistry : Registry :=
  [("app_version", appVersionHandler)]

/-- Building `basaltRegistry` via `register` from the empty registry, as
the bootstrap does conceptually: one registration, of `app_version`. -/
def buildRegistry : Except String Registry :=
  register [] "app_version" appVersionHandler

/-- The fixed diagnostic marker string printed by the setup closure
(lib.rs line 16). -/
def setupMarker : String :=
  "Basalt desktop initialized"

/-- Source setup closure (lib.rs lines 14-18): under
`#[cfg(debug_assertions)]` it prints the marker line via `println!`; in a
production build the statement is compiled out.  It then returns `Ok(())`.
The first component lists the lines written to standard output, the second
is the closure's return value. -/
def setup (debug_assertions : Bool) : List String × Except String Unit :=
  ((if debug_assertions then [setupMarker] else []), Except.ok ())

/-- Outcome of the bootstrap after the event loop: either a normal exit or
an immediate fatal process termination (a panic reported on the host's
standard error path). -/
inductive RunOutcome where
  | normalExit
  | fatalPanic (msg : String)
  deriving Repr, DecidableEq

/-- Source tail of `run` (lib.rs lines 19-20):
`.run(tauri::generate_context!()).expect("error while running tauri application")`.
Given the result of the host framework's `run` (an error on unrecoverable
startup failure, e.g. the UI surface cannot be created), `expect` panics
with the message and the error, terminating the process; it never returns
an error object to a caller. -/
def runOutcome (tauriResult : Except String Unit) : RunOutcome :=
  match tauriResult with
  | Except.ok _ => RunOutcome.normalExit
  | Except.error e =>
      RunOutcome.fatalPanic ("error while running tauri application: " ++ e)

/-- Claim C1: `app_version`, given a host context handle, returns the
semantic version string embedded in the application's build metadata
verbatim, with no formatting or transformation applied. -/
theorem app_version_verbatim (app : AppMetadata) :
    app_version app = app.version :=
  rfl

/-- Claim C2: dispatching `"app_version"` with an empty argument payload
yields a success response whose payload equals what the Version Resolver
returns directly, and with build metadata version `"1.2.3"` the dispatcher
returns `ok "1.2.3"`. -/
theorem dispatch_app_version_roundtrip (ctx : AppMetadata) :
    dispatch basaltRegistry ctx ⟨"app_version", []⟩ =
      InvocationResponse.ok (app_version ctx) ∧
    dispatch basaltRegistry ⟨"basalt", "1.2.3"⟩ ⟨"app_version", []⟩ =
      InvocationResponse.ok "1.2.3" :=
  ⟨rfl, rfl⟩

/-- Claim C3: for every command name not contained in the registry,
resolution fails with `UnknownCommand` and the dispatcher returns the
`UnknownCommand` error response; in particular `"does_not_exist"` against
the bootstrap registry yields `err "UnknownCommand"`. -/
theorem unknown_command_reported (r : Registry) (name : String)
    (hnotin : ∀ p ∈ r, p.1 ≠ name) (ctx : AppMetadata)
    (args : List (String × String)) :
    resolve r name = Except.error "UnknownCommand" ∧
    dispatch r ctx ⟨name, args⟩ = InvocationResponse.err "UnknownCommand" := by
  have hfind : r.find? (fun p => p.1 = name) = none := by
    apply List.find?_eq_none.mpr
    intro p hp
    simpa using hnotin p hp
  constructor
  · simp [resolve, hfind]
  · simp [dispatch, resolve, hfind]

/-- Witness for C3: the concrete scenario, `"does_not_exist"` against the
bootstrap registry. -/
theorem unknown_command_reported_witness :
    resolve basaltRegistry "does_not_exist" = Except.error "UnknownCommand" ∧
    dispatch basaltRegistry ⟨"basalt", "1.2.3"⟩ ⟨"does_not_exist", []⟩ =
      InvocationResponse.err "UnknownCommand" :=
  unknown_command_reported basaltRegistry "does_not_exist"
    (by
      intro p hp
      simp only [basaltRegistry, List.mem_singleton] at hp
      subst hp
      decide)
    ⟨"basalt", "1.2.3"⟩ []

/-- Claim C4: the version command is deterministic and pure: any two calls
against the same immutable application metadata return identical strings,
both equal to the build-configured semantic version. -/
theorem app_version_deterministic (app : AppMetadata) (r₁ r₂ : String)
    (h₁ : r₁ = app_version app) (h₂ : r₂ = app_version app) :
    r₁ = r₂ ∧ r₁ = app.version := by
  subst h₁; subst h₂; exact ⟨rfl, rfl⟩

/-- Witness for C4: two calls at concrete metadata. -/
theorem app_version_deterministic_witness :
    app_version ⟨"basalt", "1.2.3"⟩ = app_version ⟨"basalt", "1.2.3"⟩ ∧
    app_version ⟨"basalt", "1.2.3"⟩ = "1.2.3" :=
  app_version_deterministic ⟨"basalt", "1.2.3"⟩
    (app_version ⟨"basalt", "1.2.3"⟩) (app_version ⟨"basalt", "1.2.3"⟩) rfl rfl

/-- Claim C5: registering a second handler under an already-registered name
fails with `DuplicateCommand` at configuration time, and the registry
retains only the first registration for that name. -/
theorem duplicate_registration_fails (r₀ r : Registry) (name : String)
    (h₁ h₂ : Handler) (hreg : register r₀ name h₁ = Except.ok r) :
    register r name h₂ = Except.error "DuplicateCommand" ∧
    resolve r name = Except.ok h₁ := by
  unfold register at hreg
  by_cases hmem : r₀.any (fun p => p.1 = name)
  · simp [hmem] at hreg
  · simp [hmem] at hreg
    subst hreg
    constructor
    · simp [register]
    · have hfind : (r₀ ++ [(name, h₁)]).find? (fun p => p.1 = name) =
          some (name, h₁) := by
        rw [List.find?_append]
        have h₀ : r₀.find? (fun p => p.1 = name) = none := by
          apply List.find?_eq_none.mpr
          intro p hp
          simp only [List.any_eq_true] at hmem
          simp only [decide_eq_true_eq]
          intro hcontra
          exact hmem ⟨p, hp, by simp [hcontra]⟩
        simp [h₀]
      simp [resolve, hfind]

/-- Witness for C5: registering `app_version` twice from the empty
registry. -/
theorem duplicate_registration_fails_witness :
    register basaltRegistry "app_version" appVersionHandler =
      Except.error "DuplicateCommand" ∧
    resolve basaltRegistry "app_version" = Except.ok appVersionHandler :=
  duplicate_registration_fails [] basaltRegistry "app_version"
    appVersionHandler appVersionHandler (by simp [register, basaltRegistry])

/-- Claim C6: startup in a development configuration emits exactly one
diagnostic line, and that line contains the fixed marker string; a
production-configured startup emits no such line. -/
theorem setup_diagnostic_lines :
    (setup true).1.length = 1 ∧
    (∀ line ∈ (setup true).1, setupMarker.data <:+: line.data) ∧
    (setup false).1 = [] := by
  refine ⟨rfl, ?_, rfl⟩
  intro line hline
  simp [setup] at hline
  subst hline
  exact List.infix_rfl

/-- Witness for C6: the single development-build line does contain the
marker. -/
theorem setup_diagnostic_lines_witness :
    setupMarker.data <:+: setupMarker.data :=
  (setup_diagnostic_lines).2.1 setupMarker (by simp [setup])

/-- Claim C7: when the host framework reports an unrecoverable startup
failure, the bootstrap terminates the process immediately with a fatal
panic carrying the failure on the standard error-reporting path; it never
produces a normal exit and never hands an error object back to a caller. -/
theorem run_fatal_on_startup_failure (e : String) :
    runOutcome (Except.error e) =
      RunOutcome.fatalPanic ("error while running tauri application: " ++ e) ∧
    runOutcome (Except.error e) ≠ RunOutcome.normalExit := by
  exact ⟨rfl, by simp [runOutcome]⟩

/-- Claim C8: the `app_version` handler is infallible: it never returns the
failure branch, and dispatching `"app_version"` always produces a success
response, for every host context and argument payload. -/
theorem app_version_handler_infallible (ctx : AppMetadata)
    (args : List (String × String)) :
    appVersionHandler ctx = HandlerResult.success (app_version ctx) ∧
    dispatch basaltRegistry ctx ⟨"app_version", args⟩ =
      InvocationResponse.ok (app_version ctx) :=
  ⟨rfl, rfl⟩

/-- Claim C9: the registry built at bootstrap contains exactly the one
command name `"app_version"`, and every request whose name differs from
`"app_version"` resolves to the unknown-command error. -/
theorem registry_exactly_app_version :
    basaltRegistry.map (fun p => p.1) = ["app_version"] ∧
    ∀ n : String, n ≠ "app_version" →
      resolve basaltRegistry n = Except.error "UnknownCommand" := by
  refine ⟨rfl, ?_⟩
  intro n hn
  simp [resolve, basaltRegistry, List.find?, Ne.symm hn]

/-- Witness for C9: the name `"foo"` differs from `"app_version"` and
resolves to the unknown-command error. -/
theorem registry_exactly_app_version_witness :
    resolve basaltRegistry "foo" = Except.error "UnknownCommand" :=
  (registry_exactly_app_version).2 "foo" (by decide)

/-- Claim C10: the development diagnostic marker is exactly the string
`"Basalt desktop initialized"`, emitted as the single line of output of the
setup step; the production setup emits nothing; and the setup step always
returns `Ok` in both configurations. -/
theorem setup_marker_exact :
    setupMarker = "Basalt desktop initialized" ∧
    (setup true).1 = ["Basalt desktop initialized"] ∧
    (setup false).1 = [] ∧
    ∀ d : Bool, (setup d).2 = Except.ok () := by
  refine ⟨rfl, rfl, rfl, ?_⟩
  intro d
  rfl

end Basalt
